import Mathlib

/-
Verification development for the job-finder-bot repository.

The Python sources (db.py, sources.py, job_finder_bot.py) are shallowly
embedded below.  Pure data transformations become Lean functions; the
PostgreSQL-backed store (db.py) becomes explicit state passing over a
`DBState`; network I/O is abstracted by passing the outcome of the single
HTTP GET each adapter performs as an explicit `HttpResult` argument;
exceptions become `Except PyError`.  `hashlib.md5(...).hexdigest()` is
embedded as a full executable MD5 over the UTF-8 bytes of the input string.
-/

namespace JobFinder

/-! ### Python string primitives used by the sources -/

/-- The ASCII whitespace characters stripped by Python `str.strip()`
(space, tab, newline, carriage return, vertical tab, form feed). -/
def pyIsSpace (c : Char) : Bool :=
  c = ' ' ∨ c = '\t' ∨ c = '\n' ∨ c = '\r' ∨ c = Char.ofNat 11 ∨ c = Char.ofNat 12

/-- Python `str.strip()` (restricted to ASCII whitespace). -/
def pyStrip (s : String) : String :=
  String.mk (((s.toList.dropWhile pyIsSpace).reverse.dropWhile pyIsSpace).reverse)

/-- Decimal digit character. -/
def digitChar (n : Nat) : Char :=
  Char.ofNat (48 + n % 10)

/-- Decimal digits of a natural number, most significant first; the first
argument is recursion fuel (any fuel > 0 suffices for n < 10^fuel). -/
def decDigits : Nat → Nat → List Char
  | 0, _ => []
  | fuel + 1, n => if n < 10 then [digitChar n] else decDigits fuel (n / 10) ++ [digitChar (n % 10)]

/-- Python `str(n)` for a non-negative integer. -/
def natToDecimal (n : Nat) : String :=
  String.mk (decDigits (n + 1) n)

/-- A JSON primitive value as it reaches the `id` fields of the JSON APIs:
either a string or an integer. -/
inductive JsonPrim where
  | str (s : String)
  | num (n : Int)
deriving DecidableEq

/-- Python truthiness of a JSON primitive (`""` and `0` are falsy). -/
def jsonTruthy : JsonPrim → Bool
  | .str s => s ≠ ""
  | .num n => n ≠ 0

/-- Python `str(...)` of a JSON primitive. -/
def jsonToStr : JsonPrim → String
  | .str s => s
  | .num n => if n < 0 then "-" ++ natToDecimal n.natAbs else natToDecimal n.natAbs

/-- Python `x or d` where `x` is an optional string (absent key / `None`
modelled as `none`) and `d` a string default: the default is taken when
`x` is `None` or the empty string. -/
def pyOrD (x : Option String) (d : String) : String :=
  match x with
  | some s => if s = "" then d else s
  | none => d

/-- Python `x or y` on two optional strings (e.g.
`j.get("candidate_required_location") or j.get("location")`): the second
operand is returned verbatim when the first is `None` or empty. -/
def pyOrOpt (x y : Option String) : Option String :=
  match x with
  | some s => if s = "" then y else some s
  | none => y

/-- `needle` starts the list `hay`. -/
def startsWithChars : List Char → List Char → Bool
  | [], _ => true
  | _ :: _, [] => false
  | n :: ns, h :: hs => n = h && startsWithChars ns hs

/-- `needle` occurs inside `hay` (Python `needle in hay` on strings). -/
def containsChars (needle : List Char) : List Char → Bool
  | [] => startsWithChars needle []
  | h :: hs => startsWithChars needle (h :: hs) || containsChars needle hs

/-- Python `needle in hay` for strings. -/
def pyIn (needle hay : String) : Bool :=
  containsChars needle.toList hay.toList

/-- Python `s.startswith(p)`. -/
def pyStartsWith (p s : String) : Bool :=
  startsWithChars p.toList s.toList

/-- Python `str.lower()` (restricted to ASCII letters). -/
def pyLower (s : String) : String :=
  String.mk (s.toList.map fun c =>
    if 65 ≤ c.toNat ∧ c.toNat ≤ 90 then Char.ofNat (c.toNat + 32) else c)

/-- Drop the first `n` characters of a string. -/
def pyDrop (s : String) (n : Nat) : String :=
  String.mk (s.toList.drop n)

/-- One step of `html.unescape`: decode a leading entity, returning the
decoded character and the remaining input.  Restricted to the five basic
named entities the scraped pages use; any other sequence is left
untouched, as `html.unescape` leaves unrecognized entities untouched. -/
def unescapeStep (cs : List Char) : Option (Char × List Char) :=
  if startsWithChars "&amp;".toList cs then some ('&', cs.drop 5)
  else if startsWithChars "&lt;".toList cs then some ('<', cs.drop 4)
  else if startsWithChars "&gt;".toList cs then some ('>', cs.drop 4)
  else if startsWithChars "&quot;".toList cs then some ('"', cs.drop 6)
  else if startsWithChars "&#39;".toList cs then some (Char.ofNat 39, cs.drop 5)
  else none

/-- Worker for `htmlUnescape`; the fuel is the length of the input. -/
def unescapeAux : Nat → List Char → List Char
  | 0, cs => cs
  | fuel + 1, [] => unescapeAux fuel []
  | fuel + 1, c :: cs =>
    match unescapeStep (c :: cs) with
    | some (d, rest) => d :: unescapeAux fuel rest
    | none => c :: unescapeAux fuel cs

/-- Python `html.unescape`, restricted to the basic named entities. -/
def htmlUnescape (s : String) : String :=
  String.mk (unescapeAux s.toList.length s.toList)

/-- Worker for `stripTags`: a state machine equivalent to Python
`re.sub(r'<[^>]+>', '', s)`.  `pending = some inside` means we are inside
a candidate tag opened by `<` whose (reversed) body so far is `inside`. -/
def stripTagsAux : List Char → Option (List Char) → List Char
  | [], none => []
  | [], some inside => '<' :: inside.reverse
  | c :: cs, none =>
    if c = '<' then stripTagsAux cs (some [])
    else c :: stripTagsAux cs none
  | c :: cs, some inside =>
    if c = '>' then
      match inside with
      | [] => '<' :: '>' :: stripTagsAux cs none
      | _ :: _ => stripTagsAux cs none
    else stripTagsAux cs (some (c :: inside))

/-- Python `re.sub(r'<[^>]+>', '', s)`: remove `<`…`>` runs with a
non-empty, `>`-free body; unmatched `<` survives. -/
def stripTags (s : String) : String :=
  String.mk (stripTagsAux s.toList none)

/-! ### MD5 (`hashlib.md5(...).hexdigest()`)

Machine words are `Nat` reduced mod `2 ^ 32` wherever overflow matters. -/

/-- UTF-8 bytes of a string (Python `str.encode()`). -/
def utf8Bytes (s : String) : List Nat :=
  s.toList.flatMap fun c =>
    let n := c.toNat
    if n < 0x80 then [n]
    else if n < 0x800 then [0xC0 + n / 64, 0x80 + n % 64]
    else if n < 0x10000 then [0xE0 + n / 4096, 0x80 + (n / 64) % 64, 0x80 + n % 64]
    else [0xF0 + n / 262144, 0x80 + (n / 4096) % 64, 0x80 + (n / 64) % 64, 0x80 + n % 64]

/-- The 64 MD5 round constants `floor(abs(sin(i+1)) * 2^32)`. -/
def md5K : List Nat :=
  [3614090360, 3905402710, 606105819, 3250441966, 4118548399, 1200080426,
   2821735955, 4249261313, 1770035416, 2336552879, 4294925233, 2304563134,
   1804603682, 4254626195, 2792965006, 1236535329, 4129170786, 3225465664,
   643717713, 3921069994, 3593408605, 38016083, 3634488961, 3889429448,
   568446438, 3275163606, 4107603335, 1163531501, 2850285829, 4243563512,
   1735328473, 2368359562, 4294588738, 2272392833, 1839030562, 4259657740,
   2763975236, 1272893353, 4139469664, 3200236656, 681279174, 3936430074,
   3572445317, 76029189, 3654602809, 3873151461, 530742520, 3299628645,
   4096336452, 1126891415, 2878612391, 4237533241, 1700485571, 2399980690,
   4293915773, 2240044497, 1873313359, 4264355552, 2734768916, 1309151649,
   4149444226, 3174756917, 718787259, 3951481745]

/-- The 64 MD5 per-round left-rotation amounts. -/
def md5S : List Nat :=
  [7, 12, 17, 22, 7, 12, 17, 22, 7, 12, 17, 22, 7, 12, 17, 22,
   5, 9, 14, 20, 5, 9, 14, 20, 5, 9, 14, 20, 5, 9, 14, 20,
   4, 11, 16, 23, 4, 11, 16, 23, 4, 11, 16, 23, 4, 11, 16, 23,
   6, 10, 15, 21, 6, 10, 15, 21, 6, 10, 15, 21, 6, 10, 15, 21]

/-- Left rotation of a 32-bit word. -/
def rotl32 (x n : Nat) : Nat :=
  ((x <<< n) % 4294967296) ||| (x >>> (32 - n))

/-- One MD5 round applied to the state `(a, b, c, d)` using the 16
message words `m`. -/
def md5Round (m : List Nat) (st : Nat × Nat × Nat × Nat) (i : Nat) :
    Nat × Nat × Nat × Nat :=
  let (a, b, c, d) := st
  let f :=
    if i < 16 then (b &&& c) ||| ((4294967295 - b) &&& d)
    else if i < 32 then (d &&& b) ||| ((4294967295 - d) &&& c)
    else if i < 48 then (b ^^^ c) ^^^ d
    else c ^^^ (b ||| (4294967295 - d))
  let g :=
    if i < 16 then i
    else if i < 32 then (5 * i + 1) % 16
    else if i < 48 then (3 * i + 5) % 16
    else (7 * i) % 16
  let tmp := (a + f + md5K.getD i 0 + m.getD g 0) % 4294967296
  let b' := (b + rotl32 tmp (md5S.getD i 0)) % 4294967296
  (d, b', b, c)

/-- Decode a 64-byte block into 16 little-endian 32-bit words. -/
def md5Words (block : List Nat) : List Nat :=
  (List.range 16).map fun j =>
    block.getD (4 * j) 0 + 256 * block.getD (4 * j + 1) 0 +
      65536 * block.getD (4 * j + 2) 0 + 16777216 * block.getD (4 * j + 3) 0

/-- Compress one 64-byte block into the running MD5 state. -/
def md5Compress (st : Nat × Nat × Nat × Nat) (block : List Nat) :
    Nat × Nat × Nat × Nat :=
  let m := md5Words block
  let (a, b, c, d) := (List.range 64).foldl (md5Round m) st
  let (a0, b0, c0, d0) := st
  ((a0 + a) % 4294967296, (b0 + b) % 4294967296,
   (c0 + c) % 4294967296, (d0 + d) % 4294967296)

/-- Process padded input 64 bytes at a time; the first argument is fuel
(the total byte count suffices). -/
def md5Blocks : Nat → List Nat → (Nat × Nat × Nat × Nat) → Nat × Nat × Nat × Nat
  | 0, _, st => st
  | _ + 1, [], st => st
  | fuel + 1, bytes, st => md5Blocks fuel (bytes.drop 64) (md5Compress st (bytes.take 64))

/-- MD5 padding: `0x80`, zeros to 56 mod 64, then the bit length as a
64-bit little-endian quantity. -/
def md5Pad (msg : List Nat) : List Nat :=
  let padLen := (119 - msg.length % 64) % 64
  let bitLen := (msg.length * 8) % 18446744073709551616
  msg ++ 128 :: List.replicate padLen 0 ++
    (List.range 8).map fun j => (bitLen >>> (8 * j)) % 256

/-- Little-endian bytes of a 32-bit word. -/
def word32Bytes (w : Nat) : List Nat :=
  [w % 256, (w >>> 8) % 256, (w >>> 16) % 256, (w >>> 24) % 256]

/-- Two lowercase hex digits of a byte. -/
def hexByte (b : Nat) : List Char :=
  let digit := fun n => if n < 10 then Char.ofNat (48 + n) else Char.ofNat (87 + n)
  [digit (b / 16 % 16), digit (b % 16)]

/-- The 16 digest bytes of the MD5 of a byte sequence. -/
def md5Digest (msg : List Nat) : List Nat :=
  let padded := md5Pad msg
  let st := md5Blocks padded.length padded (1732584193, 4023233417, 2562383102, 271733878)
  word32Bytes st.1 ++ word32Bytes st.2.1 ++ word32Bytes st.2.2.1 ++ word32Bytes st.2.2.2

/-- `hashlib.md5(s.encode()).hexdigest()`. -/
def md5hex (s : String) : String :=
  String.mk ((md5Digest (utf8Bytes s)).flatMap hexByte)

/-! ### Normalized Job Record and the adapter I/O model (sources.py) -/

/-- The Normalized Job Record every adapter emits.  Fields whose Python
value may be `None` are `Option String`.  The `raw` mapping of the Python
dict is opaque and never interpreted downstream, so it is not modelled. -/
structure Job where
  unique_id : String
  title : Option String
  company : Option String
  url : Option String
  location : Option String
deriving DecidableEq

/-- The Python exceptions the embedded code can raise. -/
inductive PyError where
  /-- A transport-level `aiohttp.ClientError` (connection failure, timeout). -/
  | clientError
  /-- `aiohttp.ClientResponseError` from `raise_for_status` on an HTTP status. -/
  | httpStatusError (status : Nat)
  /-- `aiohttp.ContentTypeError` from `resp.json()` on a non-JSON content type. -/
  | contentTypeError
  /-- `json.JSONDecodeError` from `resp.json()` on an undecodable body. -/
  | jsonDecodeError
  /-- `NameError` from reading a local variable never assigned. -/
  | nameError
  /-- `TypeError` (e.g. adding `None` to a string). -/
  | typeError
  /-- `asyncpg.ForeignKeyViolationError` on an insert breaking `REFERENCES`. -/
  | foreignKeyViolation
  /-- `asyncpg.UniqueViolationError` on an insert breaking `UNIQUE`. -/
  | uniqueViolation
deriving DecidableEq

/-- The outcome of the one HTTP GET an adapter performs: either the call
raised a transport error (connection failure or timeout), or a response
arrived with a status code and a body of type `α` (the body abstracts the
raw text or the parse input the adapter works on). -/
inductive HttpResult (α : Type) where
  | transportError
  | response (status : Nat) (body : α)

/-- The outcome of `await resp.json()`: a content-type failure (an
`aiohttp.ClientError`), a JSON decode failure (`json.JSONDecodeError`,
not an `aiohttp` error), or the decoded value. -/
inductive JsonPayload (α : Type) where
  | contentTypeError
  | decodeError
  | value (a : α)

/-! #### fetch_jobs_remotive -/

/-- One element of the Remotive `jobs` array, restricted to the keys the
adapter reads.  A JSON `id` may be a number or a string. -/
structure RemotiveItem where
  id : Option JsonPrim
  url : Option String
  title : Option String
  company_name : Option String
  candidate_required_location : Option String
  location : Option String
deriving DecidableEq

/-- The decoded Remotive response; `data.get("jobs", [])`. -/
structure RemotiveData where
  jobs : List RemotiveItem
deriving DecidableEq

/-- Python `u or h` for an optional string `u` and a fallback already
computed: the fallback is taken when `u` is `None` or empty. -/
def pyOrHash (u : Option String) (h : String) : String :=
  match u with
  | some s => if s = "" then h else s
  | none => h

/-- Python `p or rest` where `p` is an optional JSON primitive. -/
def pyOrPrim (p : Option JsonPrim) (rest : String) : String :=
  match p with
  | some v => if jsonTruthy v then jsonToStr v else rest
  | none => rest

/-- The `unique` expression of fetch_jobs_remotive:
`str(j.get("id") or j.get("url") or md5((title + company_name)).hexdigest())`. -/
def remotiveUniqueId (j : RemotiveItem) : String :=
  pyOrPrim j.id
    (pyOrHash j.url (md5hex ((j.title.getD "") ++ (j.company_name.getD ""))))

/-- The normalized dict fetch_jobs_remotive appends per job. -/
def remotiveItemToJob (j : RemotiveItem) : Job :=
  { unique_id := remotiveUniqueId j
    title := j.title
    company := j.company_name
    url := j.url
    location := pyOrOpt j.candidate_required_location j.location }

/-- fetch_jobs_remotive (sources.py:10-60).  The whole request is wrapped
in `try ... except aiohttp.ClientError: return []`; a 526 status is
returned as empty before `raise_for_status`; `raise_for_status` raises for
status ≥ 400, which is an `aiohttp.ClientError` and hence caught; a
`ContentTypeError` from `resp.json()` is likewise caught, while a
`json.JSONDecodeError` is not an `aiohttp.ClientError` and escapes. -/
def fetch_jobs_remotive (r : HttpResult (JsonPayload RemotiveData))
    (query : String) (limit : Nat) : Except PyError (List Job) :=
  let _clean_query := pyStrip query
  match r with
  | .transportError => .ok []
  | .response status body =>
    if status = 526 then .ok []
    else if 400 ≤ status then .ok []
    else
      match body with
      | .contentTypeError => .ok []
      | .decodeError => .error .jsonDecodeError
      | .value data => .ok ((data.jobs.map remotiveItemToJob).take limit)

/-! #### fetch_jobs_remoteok -/

/-- One RemoteOK item, restricted to the keys the adapter reads. -/
structure RemoteOkItem where
  id : Option JsonPrim
  position : Option String
  title : Option String
  url : Option String
  company : Option String
  location : Option String
deriving DecidableEq

/-- One element of the RemoteOK top-level JSON array: the first element is
a metadata object, modelled (together with any other non-dict entry) by
`nonDict`. -/
inductive RemoteOkEntry where
  | nonDict
  | item (i : RemoteOkItem)

/-- One non-skipped iteration of the fetch_jobs_remoteok loop before the
break check: compute title and unique id and append the record when the
case-insensitive query matches title or company. -/
def remoteokStep (query : String) (i : RemoteOkItem) (idv : JsonPrim)
    (jobs : List Job) : List Job :=
  let title := pyOrOpt i.position i.title
  let unique := pyOrPrim (some idv) (pyOrHash i.url (md5hex (title.getD "")))
  if pyIn (pyLower query) (pyLower (title.getD "")) ||
      pyIn (pyLower query) (pyLower (i.company.getD "")) then
    jobs ++ [{ unique_id := unique
               title := title
               company := i.company
               url := some ("https://remoteok.com" ++ (i.url.getD ""))
               location := some (pyOrD i.location "Remote") }]
  else jobs

/-- The loop of fetch_jobs_remoteok: entries whose `id` is `None` (or
that are not dicts) are skipped with `continue`, which also skips the
`len(jobs) >= limit` break check; the break check runs after a possible
append. -/
def remoteokLoop (query : String) (limit : Nat) :
    List RemoteOkEntry → List Job → List Job
  | [], jobs => jobs
  | .nonDict :: rest, jobs => remoteokLoop query limit rest jobs
  | .item i :: rest, jobs =>
    match i.id with
    | none => remoteokLoop query limit rest jobs
    | some idv =>
      let jobs' := remoteokStep query i idv jobs
      if limit ≤ jobs'.length then jobs'
      else remoteokLoop query limit rest jobs'

/-- fetch_jobs_remoteok (sources.py:63-102).  The GET uses
`raise_for_status=True` and there is no `try`, so transport errors and
HTTP statuses ≥ 400 propagate to the caller, as do `resp.json()`
failures. -/
def fetch_jobs_remoteok (r : HttpResult (JsonPayload (List RemoteOkEntry)))
    (query : String) (limit : Nat) : Except PyError (List Job) :=
  match r with
  | .transportError => .error .clientError
  | .response status body =>
    if 400 ≤ status then .error (.httpStatusError status)
    else
      match body with
      | .contentTypeError => .error .contentTypeError
      | .decodeError => .error .jsonDecodeError
      | .value data => .ok (remoteokLoop query limit data [])

/-! #### fetch_jobs_weworkremotely -/

/-- One match of the WeWorkRemotely `job_pattern` over the fetched HTML:
the three captured groups (href path, title span body, company span
body).  The raw page is modelled by the ordered list of these matches, as
produced by `job_pattern.finditer(html)`. -/
structure WWRMatch where
  path : String
  titleRaw : String
  companyRaw : String
deriving DecidableEq

/-- The cleanup applied to a captured group in fetch_jobs_weworkremotely:
`unescape(g.strip())` followed by `re.sub(r'<[^>]+>', '', _).strip()`. -/
def wwrClean (g : String) : String :=
  pyStrip (stripTags (htmlUnescape (pyStrip g)))

/-- The dict fetch_jobs_weworkremotely appends (from whatever values the
loop variables last held). -/
def wwrMatchToJob (m : WWRMatch) : Job :=
  let full_url := "https://weworkremotely.com" ++ m.path
  let company := wwrClean m.companyRaw
  { unique_id := md5hex full_url
    title := some (wwrClean m.titleRaw)
    company := some (if company = "" then "WeWorkRemotely Employer" else company)
    url := some full_url
    location := some "Remote" }

/-- The scan loop plus the trailing `jobs.append` of
fetch_jobs_weworkremotely (sources.py:139-170).  The `jobs.append(...)`
at sources.py:156 sits OUTSIDE the `for match` loop, so on success
exactly one record is built, from the loop variables of the last match
scanned; if the loop body never ran to the variable assignments (no
match at all, or `limit = 0` so the first iteration breaks immediately),
the append reads unassigned locals and raises `NameError`. -/
def wwrAssemble (ms : List WWRMatch) (limit : Nat) : Except PyError (List Job) :=
  match ms with
  | [] => .error .nameError
  | m :: rest =>
    if limit = 0 then .error .nameError
    else .ok [wwrMatchToJob ((m :: rest).getLastD m)]

/-- fetch_jobs_weworkremotely (sources.py:105-170).  Transport errors
(and any other exception during the fetch) are caught by the broad
`except`; a non-200 status returns empty; a 200 page is handed to the
scan loop `wwrAssemble`. -/
def fetch_jobs_weworkremotely (r : HttpResult (List WWRMatch))
    (query : String) (limit : Nat) : Except PyError (List Job) :=
  let _term := query
  match r with
  | .transportError => .ok []
  | .response status ms =>
    if status ≠ 200 then .ok []
    else wwrAssemble ms limit

/-! #### fetch_jobs_rss -/

/-- One feedparser entry, restricted to the keys the adapter reads. -/
structure RssEntry where
  id : Option String
  link : Option String
  title : Option String
  author : Option String
  location : Option String
deriving DecidableEq

/-- The parsed feed.  feedparser never raises: undecodable input merely
yields an empty `entries` list. -/
structure RssFeed where
  entries : List RssEntry
deriving DecidableEq

/-- The `uniq` expression of fetch_jobs_rss:
`e.get("id") or e.get("link") or md5((title + link)).hexdigest()` —
note the hash input is title + LINK, not title + company. -/
def rssUniqueId (e : RssEntry) : String :=
  pyOrD e.id (pyOrHash e.link (md5hex ((e.title.getD "") ++ (e.link.getD ""))))

/-- The dict fetch_jobs_rss appends per entry. -/
def rssEntryToJob (e : RssEntry) : Job :=
  { unique_id := rssUniqueId e
    title := e.title
    company := some (pyOrD e.author "")
    url := e.link
    location := e.location }

/-- fetch_jobs_rss (sources.py:436-462).  The GET uses
`raise_for_status=True` with no `try`, so transport errors and HTTP
statuses ≥ 400 propagate; a malformed feed degrades to no entries. -/
def fetch_jobs_rss (r : HttpResult RssFeed) (limit : Nat) :
    Except PyError (List Job) :=
  match r with
  | .transportError => .error .clientError
  | .response status feed =>
    if 400 ≤ status then .error (.httpStatusError status)
    else .ok ((feed.entries.take limit).map rssEntryToJob)

/-! #### fetch_jobs_onlinejobs -/

/-- One match of `job_pattern_old` over the OnlineJobs.ph page, plus the
result of the `company_pattern` search over the 500 characters of page
following the match (`none` when that search fails). -/
structure OJOldMatch where
  path : String
  titleRaw : String
  companyNearby : Option String
deriving DecidableEq

/-- One match of the newer `outer_pattern`: the href path, the first
`<h3>`/`<h4>` body inside the inner HTML (if any), the `<p>…<em` body
inside the inner HTML (if any), and the nearby `company_pattern` result
used as a final fallback. -/
structure OJOuterMatch where
  path : String
  titleRaw : Option String
  companyRaw : Option String
  companyNearby : Option String
deriving DecidableEq

/-- The OnlineJobs.ph page, modelled by the match lists of the two
alternative markup patterns. -/
structure OJPage where
  oldMatches : List OJOldMatch
  outerMatches : List OJOuterMatch

/-- The company fallback at sources.py:583-589: when the company captured
so far is empty, re-search the 500 characters after the match and this
time also strip tags. -/
def ojCompanyFallback (companyNearby : Option String) (company : String) : String :=
  if company = "" then
    match companyNearby with
    | some g => pyStrip (stripTags (htmlUnescape (pyStrip g)))
    | none => ""
  else company

/-- Assemble the appended dict shared by both OnlineJobs.ph branches. -/
def ojBuildJob (path title company : String) : Job :=
  let full_url := "https://www.onlinejobs.ph" ++ path
  { unique_id := md5hex full_url
    title := some title
    company := some (if company = "" then "OnlineJobs.ph Employer" else company)
    url := some full_url
    location := some "Philippines (Remote)" }

/-- Processing of one old-style match (sources.py:556-565, 579-608).
Note the first company capture is unescaped and stripped but NOT
tag-stripped; tags are only removed by the fallback re-search when the
first capture came out empty. -/
def ojOldMatchToJob (m : OJOldMatch) : Job :=
  let title := pyStrip (stripTags (htmlUnescape (pyStrip m.titleRaw)))
  let company0 :=
    match m.companyNearby with
    | some g => htmlUnescape (pyStrip g)
    | none => ""
  ojBuildJob m.path title (ojCompanyFallback m.companyNearby company0)

/-- Processing of one newer-style match (sources.py:566-608). -/
def ojOuterMatchToJob (m : OJOuterMatch) : Job :=
  let title0 :=
    match m.titleRaw with
    | some t => htmlUnescape (pyStrip t)
    | none => "Untitled"
  let title := pyStrip (stripTags title0)
  let company0 :=
    match m.companyRaw with
    | some c => htmlUnescape (pyStrip c)
    | none => ""
  ojBuildJob m.path title (ojCompanyFallback m.companyNearby company0)

/-- fetch_jobs_onlinejobs (sources.py:465-610).  Transport errors are
caught by the broad `except`; non-200 returns empty.  The old pattern is
tried first; only if it has no matches is the newer pattern used.  The
`len(jobs) >= limit` break sits at the TOP of the loop, so at most
`limit` records are built. -/
def fetch_jobs_onlinejobs (r : HttpResult OJPage) (query : String) (limit : Nat)
    (full_time part_time freelance : Bool) : Except PyError (List Job) :=
  let _params := (query, full_time, part_time, freelance)
  match r with
  | .transportError => .ok []
  | .response status page =>
    if status ≠ 200 then .ok []
    else
      match page.oldMatches with
      | m :: rest => .ok (((m :: rest).take limit).map ojOldMatchToJob)
      | [] => .ok ((page.outerMatches.take limit).map ojOuterMatchToJob)

/-! ### The claim-side unique-id policy (for the refinement comparison)

Stated from the spec sentence: "(1) source-native numeric/string id if
present and non-empty; (2) canonical posting URL if present; (3)
deterministic hash of (title concatenated with company)." -/

/-- The unique-id derivation exactly as the specification words it: the
source-native id when present and non-empty, else the canonical posting
URL when present (and non-empty), else the hash of title ++ company. -/
def claimedUniqueId (nativeId : Option JsonPrim) (url : Option String)
    (title company : String) : String :=
  pyOrPrim nativeId (pyOrHash url (md5hex (title ++ company)))

/-! ### The durable store (db.py)

`CREATE_TABLES_SQL` declares `saved_search` with a `serial PRIMARY KEY`
and `seen_job` with `search_id integer NOT NULL REFERENCES
saved_search(id) ON DELETE CASCADE` and `UNIQUE(search_id,
job_unique_id)`.  The store is modelled as explicit state: the
`saved_search` rows in insertion (= `created_at`) order, the `seen_job`
rows as `(search_id, job_unique_id)` pairs, and the serial counter for
the next `saved_search.id`.  The `seen_job` serial id and the timestamp
columns are not read by any code and are not modelled. -/

/-- One `saved_search` row. -/
structure SavedSearch where
  id : Int
  user_id : Int
  query : String
  location : Option String
  remote_only : Bool
  source : Option String
deriving DecidableEq

/-- The database state. -/
structure DBState where
  next_id : Int
  saved : List SavedSearch
  seen : List (Int × String)
deriving DecidableEq

/-- The raw `INSERT INTO seen_job` statement under PostgreSQL semantics:
a duplicate `(search_id, job_unique_id)` pair raises a unique violation
(detected at the index before the referential-integrity trigger); a
`search_id` matching no `saved_search.id` raises a foreign-key
violation; otherwise the row is inserted. -/
def seen_insert (st : DBState) (search_id : Int) (job_id : String) :
    Except PyError DBState :=
  if (search_id, job_id) ∈ st.seen then .error .uniqueViolation
  else if ∃ r ∈ st.saved, r.id = search_id then
    .ok { st with seen := (search_id, job_id) :: st.seen }
  else .error .foreignKeyViolation

/-- mark_job_seen (db.py:96-106): the insert wrapped in
`try ... except asyncpg.UniqueViolationError: return False`.  Only the
unique violation is caught; any other error (e.g. a foreign-key
violation) surfaces to the caller. -/
def mark_job_seen (st : DBState) (search_id : Int) (job_id : String) :
    Except PyError Bool × DBState :=
  match seen_insert st search_id job_id with
  | .ok st' => (.ok true, st')
  | .error .uniqueViolation => (.ok false, st)
  | .error e => (.error e, st)

/-- add_saved_search (db.py:59-72): insert a row, returning the serial id. -/
def add_saved_search (st : DBState) (user_id : Int) (query : String)
    (location : Option String) (remote_only : Bool) (source : String) :
    Int × DBState :=
  (st.next_id,
   { st with
     next_id := st.next_id + 1
     saved := st.saved ++
       [{ id := st.next_id, user_id := user_id, query := query,
          location := location, remote_only := remote_only,
          source := some source }] })

/-- remove_saved_search (db.py:85-93):
`DELETE FROM saved_search WHERE id = $1 AND user_id = $2`; the
`ON DELETE CASCADE` clause also deletes every `seen_job` row of a
deleted search; the returned boolean (the `result.split()[-1] != "0"`
test on the `DELETE n` tag) is whether any row matched the WHERE clause.
When no row matches, the DELETE leaves both tables unchanged. -/
def remove_saved_search (st : DBState) (search_id user_id : Int) :
    Bool × DBState :=
  if ∃ r ∈ st.saved, r.id = search_id ∧ r.user_id = user_id then
    (true,
     { st with
       saved := st.saved.filter (fun r => ! decide (r.id = search_id ∧ r.user_id = user_id))
       seen := st.seen.filter (fun p => ! decide (p.1 = search_id)) })
  else (false, st)

/-- get_all_saved_searches (db.py:109-113): every row, in `created_at`
(= insertion) order. -/
def get_all_saved_searches (st : DBState) : List SavedSearch :=
  st.saved

/-- Well-formedness the real store guarantees: serial ids of existing
rows are below the counter, and every seen row references an existing
search (the foreign key). -/
def WF (st : DBState) : Prop :=
  (∀ r ∈ st.saved, r.id < st.next_id) ∧
  (∀ p ∈ st.seen, ∃ r ∈ st.saved, r.id = p.1)

/-! ### Source dispatch and the poll cycle (job_finder_bot.py)

Each adapter call is abstracted by the result it would produce for the
query at hand: an `AdapterResults` record holds, per adapter, the
`Except`-value of that call. -/

/-- The outcome each adapter call would produce in the situation being
modelled.  `rss` depends on the feed URL extracted from the selector. -/
structure AdapterResults where
  remotive : Except PyError (List Job)
  remoteok : Except PyError (List Job)
  weworkremotely : Except PyError (List Job)
  onlinejobs : Except PyError (List Job)
  flexjobs : Except PyError (List Job)
  jobstreet : Except PyError (List Job)
  upwork : Except PyError (List Job)
  rss : String → Except PyError (List Job)

/-- The `jobs = A; if not jobs: jobs = B` pattern: `B` runs only when `A`
succeeded with an empty list; an error in `A` propagates. -/
def fallbackIfEmpty (a b : Except PyError (List Job)) :
    Except PyError (List Job) :=
  match a with
  | .error e => .error e
  | .ok l => if l.isEmpty then b else .ok l

/-- The final `else` branch of the /findjob dispatch
(job_finder_bot.py:312-335): Remotive, then RemoteOK, then
WeWorkRemotely, then OnlineJobs.ph, each tried only when the previous
returned empty. -/
def findjob_auto (env : AdapterResults) : Except PyError (List Job) :=
  fallbackIfEmpty env.remotive
    (fallbackIfEmpty env.remoteok
      (fallbackIfEmpty env.weworkremotely env.onlinejobs))

/-- The source dispatch of the /findjob slash command
(job_finder_bot.py:262-335).  The `source` parameter defaults to
`"remotive"` when the user omits it; `none` models an explicit Python
`None`, which matches no `elif` and falls into the auto cascade, as does
any unrecognized name. -/
def findjob_dispatch (env : AdapterResults) (source : Option String) :
    Except PyError (List Job) :=
  if source = some "remotive" then fallbackIfEmpty env.remotive env.remoteok
  else if source = some "remoteok" then env.remoteok
  else if source = some "onlinejobs" then fallbackIfEmpty env.onlinejobs env.remoteok
  else if source = some "weworkremotely" then env.weworkremotely
  else if source = some "flexjobs" then env.flexjobs
  else if source = some "jobstreet" then env.jobstreet
  else if source = some "upwork" then env.upwork
  else findjob_auto env

/-- The per-search fetcher choice of poll_saved_searches
(job_finder_bot.py:400-433): one adapter per recognized name, the
`rss:<url>` prefix routed to the RSS adapter with the remainder as feed
URL, and — unlike the interactive path — a bare call to Remotive with NO
cascade for any unrecognized name. -/
def poll_fetch (env : AdapterResults) (source : String) :
    Except PyError (List Job) :=
  if source = "remotive" then env.remotive
  else if source = "remoteok" then env.remoteok
  else if source = "onlinejobs" then env.onlinejobs
  else if source = "weworkremotely" then env.weworkremotely
  else if source = "flexjobs" then env.flexjobs
  else if source = "jobstreet" then env.jobstreet
  else if source = "upwork" then env.upwork
  else if pyStartsWith "rss:" source then env.rss (pyDrop source 4)
  else env.remotive

/-- The unique-id reconstruction in the poll loop
(job_finder_bot.py:441-445):
`j.get("unique_id") or j["url"] or (j["title"] + j.get("company", ""))`.
Every adapter dict carries all three keys, so the dict accesses cannot
`KeyError`, but a `None` value reaching the `+` raises `TypeError`. -/
def pollUniqueId (j : Job) : Except PyError String :=
  let titlePlus : Except PyError String :=
    match j.title, j.company with
    | some t, some c => .ok (t ++ c)
    | _, _ => .error .typeError
  if j.unique_id = "" then
    match j.url with
    | some u => if u = "" then titlePlus else .ok u
    | none => titlePlus
  else .ok j.unique_id

/-- The inner loop of a poll cycle over one search's fetched jobs
(job_finder_bot.py:440-467): each job is marked seen; a newly seen job
produces one DM notification `(user_id, job)`; DM delivery failures are
caught and ignored.  This loop is NOT inside the fetch `try`, so a store
error here aborts the whole cycle. -/
def poll_process_jobs (search_id user_id : Int) :
    List Job → DBState → Except PyError (DBState × List (Int × Job))
  | [], st => .ok (st, [])
  | j :: rest, st =>
    match pollUniqueId j with
    | .error e => .error e
    | .ok uid =>
      match mark_job_seen st search_id uid with
      | (.error e, _) => .error e
      | (.ok isNew, st') =>
        match poll_process_jobs search_id user_id rest st' with
        | .error e => .error e
        | .ok (st'', notes) =>
          .ok (st'', (if isNew then [(user_id, j)] else []) ++ notes)

/-- One poll cycle (job_finder_bot.py:383-467) over the given saved
searches: per search the fetch runs inside
`try ... except Exception: continue`, so a failing fetch skips only that
search; `s["source"] or "remotive"` supplies the default source. -/
def poll_cycle (env : SavedSearch → AdapterResults) :
    List SavedSearch → DBState → Except PyError (DBState × List (Int × Job))
  | [], st => .ok (st, [])
  | s :: rest, st =>
    match poll_fetch (env s) (pyOrD s.source "remotive") with
    | .error _ => poll_cycle env rest st
    | .ok jobs =>
      match poll_process_jobs s.id s.user_id jobs st with
      | .error e => .error e
      | .ok (st', notes) =>
        match poll_cycle env rest st' with
        | .error e => .error e
        | .ok (st'', notes') => .ok (st'', notes ++ notes')

/-! ### Concrete sample data for witnesses and counterexamples -/

/-- A store holding no rows; the serial counter starts at 1. -/
def emptyDB : DBState := ⟨1, [], []⟩

/-- A saved search owned by user 100. -/
def searchVA : SavedSearch :=
  ⟨1, 100, "virtual assistant", none, true, some "remotive"⟩

/-- A store holding `searchVA` and two seen records for it. -/
def dbSeen2 : DBState := ⟨2, [searchVA], [(1, "jobA"), (1, "jobB")]⟩

/-- A sample normalized job. -/
def jobA : Job :=
  ⟨"ok-1", some "Data Entry", some "Acme", some "https://remoteok.com/remote-jobs/1", some "Remote"⟩

/-- Adapter outcomes where Remotive is empty but RemoteOK has a job. -/
def envA : AdapterResults :=
  ⟨.ok [], .ok [jobA], .ok [], .ok [], .ok [], .ok [], .ok [], fun _ => .ok []⟩

/-- Adapter outcomes where RemoteOK raises while Remotive and
WeWorkRemotely succeed. -/
def envB : AdapterResults :=
  ⟨.ok [jobA], .error .clientError,
   .ok [⟨"wwr-1", some "VA", some "Beta", some "https://weworkremotely.com/remote-jobs/x", some "Remote"⟩],
   .ok [], .ok [], .ok [], .ok [], fun _ => .ok []⟩

/-- Three saved searches with distinct sources; under `envB` the second
one's fetch (RemoteOK) raises. -/
def searchS1 : SavedSearch := ⟨1, 100, "va", none, true, some "remotive"⟩

def searchS2 : SavedSearch := ⟨2, 101, "va", none, true, some "remoteok"⟩

def searchS3 : SavedSearch := ⟨3, 102, "va", none, true, some "weworkremotely"⟩

/-- A store holding the three searches. -/
def db3 : DBState := ⟨4, [searchS1, searchS2, searchS3], []⟩

/-- A Remotive job payload whose only key is a numeric `id`. -/
def remotiveBareItem : RemotiveItem := ⟨some (.num 7), none, none, none, none, none⟩

/-- A RemoteOK entry that matches any query whose lowercase form occurs
in "data entry". -/
def remoteokEntry1 : RemoteOkEntry :=
  .item ⟨some (.num 1), some "Data Entry", none, some "/remote-jobs/1", some "Acme", none⟩

/-- An OnlineJobs.ph page with a single old-style match. -/
def ojPage1 : OJPage := ⟨[⟨"/jobseekers/jobdetails/1", "VA needed", none⟩], []⟩

/-- The posting URL of the single match of `ojPage1`. -/
def ojUrl1 : String := "https://www.onlinejobs.ph/jobseekers/jobdetails/1"

/-- A one-match WeWorkRemotely page. -/
def wwrMatch1 : WWRMatch := ⟨"/remote-jobs/alpha", "Designer", "Gamma Co"⟩

/-- A second WeWorkRemotely match, scanned after `wwrMatch1`. -/
def wwrMatch2 : WWRMatch := ⟨"/remote-jobs/beta", "Writer", "Delta Co"⟩

/-- An RSS entry carrying only a title and an author. -/
def rssEntryTC : RssEntry := ⟨none, none, some "T", some "C", none⟩

/-! ### Helper lemmas -/

theorem decDigits_ne_nil (fuel n : Nat) : decDigits (fuel + 1) n ≠ [] := by
  unfold decDigits
  split <;> simp

theorem natToDecimal_ne_empty (n : Nat) : natToDecimal n ≠ "" := by
  have h := decDigits_ne_nil n n
  simp only [natToDecimal, ne_eq, String.ext_iff]
  simpa using h

theorem jsonToStr_ne_empty (p : JsonPrim) (h : jsonTruthy p = true) :
    jsonToStr p ≠ "" := by
  cases p with
  | str s => simpa [jsonTruthy, jsonToStr] using h
  | num n =>
    simp only [jsonToStr]
    split
    · intro hc
      have := congrArg String.data hc
      simp at this
    · exact natToDecimal_ne_empty _

theorem md5hex_ne_empty (s : String) : md5hex s ≠ "" := by
  simp [md5hex, md5Digest, word32Bytes, hexByte, String.ext_iff]

theorem pyOrHash_ne_empty (u : Option String) (h : String) (hh : h ≠ "") :
    pyOrHash u h ≠ "" := by
  unfold pyOrHash
  cases u with
  | none => exact hh
  | some s =>
    by_cases hs : s = "" <;> simp [hs, hh]

theorem pyOrD_ne_empty (x : Option String) (d : String) (hd : d ≠ "") :
    pyOrD x d ≠ "" := by
  unfold pyOrD
  cases x with
  | none => exact hd
  | some s =>
    by_cases hs : s = "" <;> simp [hs, hd]

theorem pyOrPrim_ne_empty (p : Option JsonPrim) (rest : String) (hr : rest ≠ "") :
    pyOrPrim p rest ≠ "" := by
  unfold pyOrPrim
  cases p with
  | none => exact hr
  | some v =>
    by_cases hv : jsonTruthy v = true
    · simp [hv, jsonToStr_ne_empty v hv]
    · simp [hv] at *
      simp [hv, hr]

theorem remotiveUniqueId_ne_empty (j : RemotiveItem) : remotiveUniqueId j ≠ "" :=
  pyOrPrim_ne_empty _ _ (pyOrHash_ne_empty _ _ (md5hex_ne_empty _))

theorem rssUniqueId_ne_empty (e : RssEntry) : rssUniqueId e ≠ "" :=
  pyOrD_ne_empty _ _ (pyOrHash_ne_empty _ _ (md5hex_ne_empty _))

theorem remoteokStep_length (query : String) (i : RemoteOkItem) (idv : JsonPrim)
    (jobs : List Job) :
    (remoteokStep query i idv jobs).length ≤ jobs.length + 1 := by
  unfold remoteokStep
  dsimp only
  split <;> simp

theorem remoteokStep_unique (query : String) (i : RemoteOkItem) (idv : JsonPrim)
    (jobs : List Job) (h : ∀ j ∈ jobs, j.unique_id ≠ "") :
    ∀ j ∈ remoteokStep query i idv jobs, j.unique_id ≠ "" := by
  unfold remoteokStep
  dsimp only
  split
  · intro j hj
    rcases List.mem_append.mp hj with hj | hj
    · exact h j hj
    · rcases List.mem_singleton.mp hj with rfl
      exact pyOrPrim_ne_empty (some idv)
        (pyOrHash i.url (md5hex ((pyOrOpt i.position i.title).getD "")))
        (pyOrHash_ne_empty _ _ (md5hex_ne_empty _))
  · exact h

theorem remoteokLoop_length (query : String) (limit : Nat)
    (entries : List RemoteOkEntry) :
    ∀ jobs : List Job, jobs.length < limit →
      (remoteokLoop query limit entries jobs).length ≤ limit := by
  induction entries with
  | nil => intro jobs h; exact Nat.le_of_lt (by simpa [remoteokLoop] using h)
  | cons e rest ih =>
    intro jobs h
    cases e with
    | nonDict => simpa [remoteokLoop] using ih jobs h
    | item i =>
      cases hid : i.id with
      | none => simp only [remoteokLoop, hid]; exact ih jobs h
      | some idv =>
        simp only [remoteokLoop, hid]
        have hstep := remoteokStep_length query i idv jobs
        split
        · exact Nat.le_trans hstep h
        · exact ih _ (Nat.lt_of_not_le (by assumption))

theorem remoteokLoop_unique (query : String) (limit : Nat)
    (entries : List RemoteOkEntry) :
    ∀ jobs : List Job, (∀ j ∈ jobs, j.unique_id ≠ "") →
      ∀ j ∈ remoteokLoop query limit entries jobs, j.unique_id ≠ "" := by
  induction entries with
  | nil => intro jobs h; simpa [remoteokLoop] using h
  | cons e rest ih =>
    intro jobs h
    cases e with
    | nonDict => simpa [remoteokLoop] using ih jobs h
    | item i =>
      cases hid : i.id with
      | none => simp only [remoteokLoop, hid]; exact ih jobs h
      | some idv =>
        simp only [remoteokLoop, hid]
        have hstep := remoteokStep_unique query i idv jobs h
        split
        · exact hstep
        · exact ih _ hstep

theorem take_map_length_le {α : Type} (xs : List α) (n : Nat) (f : α → Job) :
    ((xs.take n).map f).length ≤ n := by
  simp only [List.length_map, List.length_take]
  exact Nat.min_le_left _ _

theorem map_take_length_le {α : Type} (xs : List α) (n : Nat) (f : α → Job) :
    ((xs.map f).take n).length ≤ n := by
  simp only [List.length_take, List.length_map]
  exact Nat.min_le_left _ _

theorem of_mem_map_take {α : Type} {xs : List α} {f : α → Job} {n : Nat} {j : Job}
    (hj : j ∈ (xs.map f).take n) : ∃ a ∈ xs, f a = j := by
  have hm := List.take_subset n (xs.map f) hj
  exact List.mem_map.mp hm

theorem of_mem_take_map {α : Type} {xs : List α} {f : α → Job} {n : Nat} {j : Job}
    (hj : j ∈ (xs.take n).map f) : ∃ a ∈ xs, f a = j := by
  rcases List.mem_map.mp hj with ⟨a, ha, rfl⟩
  exact ⟨a, List.take_subset _ _ ha, rfl⟩

theorem remotiveItemToJob_unique (j : RemotiveItem) :
    (remotiveItemToJob j).unique_id ≠ "" := remotiveUniqueId_ne_empty j

theorem rssEntryToJob_unique (e : RssEntry) :
    (rssEntryToJob e).unique_id ≠ "" := rssUniqueId_ne_empty e

theorem wwrMatchToJob_unique (m : WWRMatch) :
    (wwrMatchToJob m).unique_id ≠ "" := md5hex_ne_empty _

theorem ojOldMatchToJob_unique (m : OJOldMatch) :
    (ojOldMatchToJob m).unique_id ≠ "" := md5hex_ne_empty _

theorem ojOuterMatchToJob_unique (m : OJOuterMatch) :
    (ojOuterMatchToJob m).unique_id ≠ "" := md5hex_ne_empty _

theorem md5hex_data_length (s : String) : (md5hex s).data.length = 32 := by
  simp [md5hex, md5Digest, word32Bytes, hexByte]

theorem poll_cycle_skip (env : SavedSearch → AdapterResults) (s : SavedSearch)
    (e : PyError)
    (he : poll_fetch (env s) (pyOrD s.source "remotive") = .error e) :
    ∀ (pre post : List SavedSearch) (st : DBState),
      poll_cycle env (pre ++ s :: post) st = poll_cycle env (pre ++ post) st := by
  intro pre
  induction pre with
  | nil =>
    intro post st
    simp [poll_cycle, he]
  | cons s0 rest ih =>
    intro post st
    simp only [List.cons_append, poll_cycle, List.append_eq]
    cases poll_fetch (env s0) (pyOrD s0.source "remotive") with
    | error e0 => exact ih post st
    | ok jobs =>
      cases hp : poll_process_jobs s0.id s0.user_id jobs st with
      | error e0 => simp [hp]
      | ok pr =>
        obtain ⟨st', notes⟩ := pr
        simp only [hp]
        rw [ih post st']

/-! ### Claim theorems -/

/-- C1, counterexample.  The claim quantifies over EVERY search_id, but
when the search_id references no saved_search row the very first insert
raises `asyncpg.ForeignKeyViolationError` (the `REFERENCES` clause of
db.py:22), which `except asyncpg.UniqueViolationError` does not catch: on
the empty store, mark_job_seen(1, "job-x") surfaces an error instead of
returning true. -/
theorem claim_C1_counterexample :
    (mark_job_seen emptyDB 1 "job-x").1 = .error .foreignKeyViolation := rfl

/-- C1, amended: for every search_id that references an existing saved
search and every job_unique_id, starting from a state where the pair is
absent, mark_job_seen returns true on the first call and false on the
second (the duplicate insert's uniqueness violation being caught and
converted to false, never surfaced as an error). -/
theorem claim_C1 (st : DBState) (sid : Int) (uid : String)
    (hfk : ∃ r ∈ st.saved, r.id = sid) (habs : (sid, uid) ∉ st.seen) :
    (mark_job_seen st sid uid).1 = .ok true ∧
    (mark_job_seen (mark_job_seen st sid uid).2 sid uid).1 = .ok false := by
  have h1 : mark_job_seen st sid uid =
      (.ok true, { st with seen := (sid, uid) :: st.seen }) := by
    unfold mark_job_seen seen_insert
    rw [if_neg habs, if_pos hfk]
  refine ⟨by rw [h1], ?_⟩
  rw [h1]
  unfold mark_job_seen seen_insert
  rw [if_pos (List.mem_cons_self _ _)]

/-- C1 witness: on the three-search store, marking (1, "x") twice gives
true then false. -/
theorem claim_C1_witness :
    (mark_job_seen db3 1 "x").1 = .ok true ∧
    (mark_job_seen (mark_job_seen db3 1 "x").2 1 "x").1 = .ok false :=
  claim_C1 db3 1 "x" (by decide) (by decide)

/-- C10: mark_job_seen changes the store at most by inserting the single
pair into the seen set — the saved_search table and the serial counter
are untouched, the seen set is either unchanged or exactly extended by
the pair, a false return leaves the store completely unchanged, and so
does an error. -/
theorem claim_C10 (st : DBState) (sid : Int) (uid : String) :
    (mark_job_seen st sid uid).2.saved = st.saved ∧
    (mark_job_seen st sid uid).2.next_id = st.next_id ∧
    ((mark_job_seen st sid uid).2.seen = st.seen ∨
      (mark_job_seen st sid uid).2.seen = (sid, uid) :: st.seen) ∧
    ((mark_job_seen st sid uid).1 = .ok false → (mark_job_seen st sid uid).2 = st) ∧
    (∀ e, (mark_job_seen st sid uid).1 = .error e → (mark_job_seen st sid uid).2 = st) := by
  by_cases h1 : (sid, uid) ∈ st.seen
  · have h : mark_job_seen st sid uid = (.ok false, st) := by
      unfold mark_job_seen seen_insert
      rw [if_pos h1]
    rw [h]
    exact ⟨rfl, rfl, .inl rfl, fun _ => rfl, fun e he => by simp at he⟩
  · by_cases h2 : ∃ r ∈ st.saved, r.id = sid
    · have h : mark_job_seen st sid uid =
          (.ok true, { st with seen := (sid, uid) :: st.seen }) := by
        unfold mark_job_seen seen_insert
        rw [if_neg h1, if_pos h2]
      rw [h]
      exact ⟨rfl, rfl, .inr rfl, fun hc => by simp at hc, fun e he => by simp at he⟩
    · have h : mark_job_seen st sid uid = (.error .foreignKeyViolation, st) := by
        unfold mark_job_seen seen_insert
        rw [if_neg h1, if_neg h2]
      rw [h]
      exact ⟨rfl, rfl, .inl rfl, fun hc => by simp at hc, fun e _ => rfl⟩

/-- C10 witness: on the empty store the call errors (missing foreign
key) and the frame condition says the store is unchanged. -/
theorem claim_C10_witness : (mark_job_seen emptyDB 1 "u").2 = emptyDB :=
  (claim_C10 emptyDB 1 "u").2.2.2.2 .foreignKeyViolation rfl

/-- C8: remove_saved_search returns true exactly when a saved search
with the given id exists AND is owned by the calling user_id; when it
reports false ("not found") the store is untouched, so deletion by any
other user_id deletes nothing. -/
theorem claim_C8 (st : DBState) (sid userId : Int) :
    ((remove_saved_search st sid userId).1 = true ↔
      ∃ r ∈ st.saved, r.id = sid ∧ r.user_id = userId) ∧
    ((remove_saved_search st sid userId).1 = false →
      (remove_saved_search st sid userId).2 = st) := by
  by_cases h : ∃ r ∈ st.saved, r.id = sid ∧ r.user_id = userId
  · have hrm : (remove_saved_search st sid userId).1 = true := by
      unfold remove_saved_search
      rw [if_pos h]
    rw [hrm]
    exact ⟨⟨fun _ => h, fun _ => rfl⟩, fun hc => by simp at hc⟩
  · have hrm : remove_saved_search st sid userId = (false, st) := by
      unfold remove_saved_search
      rw [if_neg h]
    rw [hrm]
    exact ⟨⟨fun hc => by simp at hc, fun he => absurd he h⟩, fun _ => rfl⟩

/-- C8 witness: user 999 cannot delete search 1 (owned by user 100); the
store is unchanged. -/
theorem claim_C8_witness : (remove_saved_search db3 1 999).2 = db3 :=
  (claim_C8 db3 1 999).2 (by rfl)

/-- C6: on a well-formed store, deleting an existing saved search (by its
owner) reports true, leaves no seen record referencing the deleted
search_id, and a search re-created afterwards (whatever its query) gets a
fresh serial id whose seen set is empty. -/
theorem claim_C6 (st : DBState) (sid userId : Int) (hwf : WF st)
    (hex : ∃ r ∈ st.saved, r.id = sid ∧ r.user_id = userId) :
    (remove_saved_search st sid userId).1 = true ∧
    (∀ p ∈ (remove_saved_search st sid userId).2.seen, p.1 ≠ sid) ∧
    (∀ q loc ro src,
      ∀ p ∈ (add_saved_search (remove_saved_search st sid userId).2
          userId q loc ro src).2.seen,
        p.1 ≠ (add_saved_search (remove_saved_search st sid userId).2
          userId q loc ro src).1) := by
  have hrm : remove_saved_search st sid userId =
      (true,
       { st with
         saved := st.saved.filter (fun r => ! decide (r.id = sid ∧ r.user_id = userId))
         seen := st.seen.filter (fun p => ! decide (p.1 = sid)) }) := by
    unfold remove_saved_search
    rw [if_pos hex]
  refine ⟨by rw [hrm], ?_, ?_⟩
  · intro p hp
    rw [hrm] at hp
    have := List.of_mem_filter hp
    simpa using this
  · intro q loc ro src p hp
    rw [hrm] at hp ⊢
    have h' : p ∈ st.seen ∧ ¬p.1 = sid := by
      simpa [add_saved_search, List.mem_filter] using hp
    have hp2 : p ∈ st.seen := h'.1
    obtain ⟨r, hr, hrid⟩ := hwf.2 p hp2
    have hlt : p.1 < st.next_id := hrid ▸ hwf.1 r hr
    simpa [add_saved_search] using Int.ne_of_lt hlt

/-- C6 witness: after user 100 deletes search 1, the seen record
(1, "jobA") that existed for it is gone. -/
theorem claim_C6_witness :
    ((1 : Int), "jobA") ∉ (remove_saved_search dbSeen2 1 100).2.seen :=
  fun hmem =>
    (claim_C6 dbSeen2 1 100 ⟨by decide, by decide⟩ (by decide)).2.1 _ hmem rfl

/-- C7: a poll cycle in which the fetch for one saved search raises is
identical — in final store state and in emitted notifications — to the
cycle over the remaining searches: the failing search is skipped by the
`except ... continue` and every other search, before and after it, is
still attempted and processed. -/
theorem claim_C7 (env : SavedSearch → AdapterResults)
    (pre post : List SavedSearch) (s : SavedSearch) (st : DBState)
    (e : PyError)
    (he : poll_fetch (env s) (pyOrD s.source "remotive") = .error e) :
    poll_cycle env (pre ++ s :: post) st = poll_cycle env (pre ++ post) st :=
  poll_cycle_skip env s e he pre post st

/-- C7 witness: under `envB` the fetch for `searchS2` (RemoteOK) raises,
and the three-search cycle equals the cycle over searches 1 and 3. -/
theorem claim_C7_witness :
    poll_cycle (fun _ => envB) ([searchS1] ++ searchS2 :: [searchS3]) db3 =
      poll_cycle (fun _ => envB) ([searchS1] ++ [searchS3]) db3 :=
  claim_C7 (fun _ => envB) [searchS1] [searchS3] searchS2 db3 .clientError rfl

/-- C9: whenever the WeWorkRemotely page yields at least one match of
the job pattern and the limit is at least 1, the adapter returns exactly
one record, built from the last match scanned — because the
`jobs.append` at sources.py:156 is outside the scan loop. -/
theorem claim_C9 (m : WWRMatch) (rest : List WWRMatch) (query : String)
    (limit : Nat) (hl : limit ≠ 0) :
    fetch_jobs_weworkremotely (.response 200 (m :: rest)) query limit =
      .ok [wwrMatchToJob ((m :: rest).getLastD m)] := by
  simp [fetch_jobs_weworkremotely, wwrAssemble, hl]

/-- C9 witness: two distinct matches, limit 10 — the single record comes
from the second (last) match. -/
theorem claim_C9_witness :
    fetch_jobs_weworkremotely (.response 200 [wwrMatch1, wwrMatch2]) "va" 10 =
      .ok [wwrMatchToJob wwrMatch2] := by
  have h := claim_C9 wwrMatch1 [wwrMatch2] "va" 10 (by decide)
  simpa using h

/-- C5, counterexample.  In the poll-scheduler path an unrecognized
selector invokes ONLY Remotive (job_finder_bot.py:426-433): with Remotive
empty and RemoteOK holding a job, the poll fetch returns empty instead of
the first non-empty cascade result the claim requires. -/
theorem claim_C5_counterexample :
    poll_fetch envA "auto" = .ok [] ∧ envA.remoteok = .ok [jobA] :=
  ⟨rfl, rfl⟩

/-- C5, amended: in the interactive path an unrecognized selector (or an
explicit Python None) triggers the cascade Remotive → RemoteOK →
WeWorkRemotely → OnlineJobs.ph, stopping at the first non-empty result
and returning empty without raising when all four are empty; an absent
selector instead defaults to "remotive", which falls back only to
RemoteOK; in the poll-scheduler path an unrecognized selector invokes
Remotive alone, with no cascade. -/
theorem claim_C5 :
    (∀ (env : AdapterResults) (s : String),
      s ∉ (["remotive", "remoteok", "onlinejobs", "weworkremotely",
            "flexjobs", "jobstreet", "upwork"] : List String) →
      findjob_dispatch env (some s) = findjob_auto env) ∧
    (∀ env : AdapterResults, findjob_dispatch env none = findjob_auto env) ∧
    (∀ (env : AdapterResults) (l : List Job),
      env.remotive = .ok l → l ≠ [] → findjob_auto env = .ok l) ∧
    (∀ (env : AdapterResults) (l : List Job),
      env.remotive = .ok [] → env.remoteok = .ok l → l ≠ [] →
      findjob_auto env = .ok l) ∧
    (∀ (env : AdapterResults) (l : List Job),
      env.remotive = .ok [] → env.remoteok = .ok [] →
      env.weworkremotely = .ok l → l ≠ [] → findjob_auto env = .ok l) ∧
    (∀ env : AdapterResults,
      env.remotive = .ok [] → env.remoteok = .ok [] →
      env.weworkremotely = .ok [] → findjob_auto env = env.onlinejobs) ∧
    (∀ env : AdapterResults,
      env.remotive = .ok [] → env.remoteok = .ok [] →
      env.weworkremotely = .ok [] → env.onlinejobs = .ok [] →
      findjob_auto env = .ok []) ∧
    (∀ env : AdapterResults,
      findjob_dispatch env (some "remotive") =
        fallbackIfEmpty env.remotive env.remoteok) ∧
    (∀ (env : AdapterResults) (s : String),
      s ∉ (["remotive", "remoteok", "onlinejobs", "weworkremotely",
            "flexjobs", "jobstreet", "upwork"] : List String) →
      pyStartsWith "rss:" s = false →
      poll_fetch env s = env.remotive) := by
  refine ⟨?_, fun env => rfl, ?_, ?_, ?_, ?_, ?_, fun env => rfl, ?_⟩
  · intro env s hs
    simp only [List.mem_cons, List.not_mem_nil, or_false, not_or] at hs
    obtain ⟨h1, h2, h3, h4, h5, h6, h7⟩ := hs
    simp [findjob_dispatch, h1, h2, h3, h4, h5, h6, h7]
  · intro env l h hne
    simp [findjob_auto, fallbackIfEmpty, h, hne]
  · intro env l h1 h2 hne
    simp [findjob_auto, fallbackIfEmpty, h1, h2, hne]
  · intro env l h1 h2 h3 hne
    simp [findjob_auto, fallbackIfEmpty, h1, h2, h3, hne]
  · intro env h1 h2 h3
    simp [findjob_auto, fallbackIfEmpty, h1, h2, h3]
  · intro env h1 h2 h3 h4
    simp [findjob_auto, fallbackIfEmpty, h1, h2, h3, h4]
  · intro env s hs hrss
    simp only [List.mem_cons, List.not_mem_nil, or_false, not_or] at hs
    obtain ⟨h1, h2, h3, h4, h5, h6, h7⟩ := hs
    simp [poll_fetch, h1, h2, h3, h4, h5, h6, h7, hrss]

/-- C5 witness: with selector "auto" the interactive path cascades (and
under `envA` returns RemoteOK's job), while the poll path calls Remotive
alone. -/
theorem claim_C5_witness :
    findjob_dispatch envA (some "auto") = .ok [jobA] ∧
    poll_fetch envA "auto" = envA.remotive := by
  obtain ⟨h1, -, -, h4, -, -, -, -, h9⟩ := claim_C5
  refine ⟨?_, h9 envA "auto" (by decide) (by decide)⟩
  rw [h1 envA "auto" (by decide)]
  exact h4 envA [jobA] rfl rfl (by simp [jobA])

/-- C2, counterexample.  RemoteOK (GET with `raise_for_status=True`, no
try) propagates a transport error; the RSS adapter (same construction)
propagates an HTTP 404; and WeWorkRemotely raises `NameError` when its
job pattern matches nothing in a 200 page — three expected failure modes
that surface as exceptions instead of an empty sequence. -/
theorem claim_C2_counterexample :
    fetch_jobs_remoteok .transportError "va" 10 = .error .clientError ∧
    fetch_jobs_rss (.response 404 ⟨[]⟩) 10 = .error (.httpStatusError 404) ∧
    fetch_jobs_weworkremotely (.response 200 []) "va" 10 = .error .nameError :=
  ⟨rfl, rfl, rfl⟩

/-- C2, amended: Remotive, WeWorkRemotely and OnlineJobs.ph catch
transport errors and HTTP error statuses and return an empty sequence
(Remotive also treats the rate-limit status 526 and a content-type
failure as empty); but RemoteOK and the RSS adapter propagate transport
errors and HTTP statuses ≥ 400 as exceptions, a JSON body that fails to
decode raises in Remotive (and RemoteOK), and WeWorkRemotely raises a
NameError when its pattern matches nothing — so not every adapter
degrades every expected failure to an empty sequence. -/
theorem claim_C2 :
    (∀ q l, fetch_jobs_remotive .transportError q l = .ok []) ∧
    (∀ q l s b, 400 ≤ s → fetch_jobs_remotive (.response s b) q l = .ok []) ∧
    (∀ q l b, fetch_jobs_remotive (.response 526 b) q l = .ok []) ∧
    (∀ q l, fetch_jobs_remotive (.response 200 .contentTypeError) q l = .ok []) ∧
    (∀ q l, fetch_jobs_remotive (.response 200 .decodeError) q l =
      .error .jsonDecodeError) ∧
    (∀ q l, fetch_jobs_weworkremotely .transportError q l = .ok []) ∧
    (∀ q l s ms, s ≠ 200 →
      fetch_jobs_weworkremotely (.response s ms) q l = .ok []) ∧
    (∀ q l ft pt fr,
      fetch_jobs_onlinejobs .transportError q l ft pt fr = .ok []) ∧
    (∀ q l s p ft pt fr, s ≠ 200 →
      fetch_jobs_onlinejobs (.response s p) q l ft pt fr = .ok []) ∧
    (∀ q l, fetch_jobs_remoteok .transportError q l = .error .clientError) ∧
    (∀ q l s b, 400 ≤ s →
      fetch_jobs_remoteok (.response s b) q l = .error (.httpStatusError s)) ∧
    (∀ q l, fetch_jobs_remoteok (.response 200 .decodeError) q l =
      .error .jsonDecodeError) ∧
    (∀ l, fetch_jobs_rss .transportError l = .error .clientError) ∧
    (∀ l s f, 400 ≤ s →
      fetch_jobs_rss (.response s f) l = .error (.httpStatusError s)) ∧
    (∀ q l, fetch_jobs_weworkremotely (.response 200 []) q l =
      .error .nameError) := by
  refine ⟨fun q l => rfl, ?_, fun q l b => rfl, fun q l => rfl, fun q l => rfl,
    fun q l => rfl, ?_, fun q l ft pt fr => rfl, ?_,
    fun q l => rfl, ?_, fun q l => rfl, fun l => rfl, ?_, fun q l => rfl⟩
  · intro q l s b hs
    simp [fetch_jobs_remotive, hs]
  · intro q l s ms hs
    simp [fetch_jobs_weworkremotely, hs]
  · intro q l s p ft pt fr hs
    simp [fetch_jobs_onlinejobs, hs]
  · intro q l s b hs
    simp [fetch_jobs_remoteok, hs]
  · intro l s f hs
    simp [fetch_jobs_rss, hs]

/-- C2 witness: Remotive returns empty on an HTTP 500 where RemoteOK
raises, and WeWorkRemotely returns empty on an HTTP 404. -/
theorem claim_C2_witness :
    fetch_jobs_remotive (.response 500 (.value ⟨[]⟩)) "q" 5 = .ok [] ∧
    fetch_jobs_remoteok (.response 500 .contentTypeError) "q" 5 =
      .error (.httpStatusError 500) ∧
    fetch_jobs_weworkremotely (.response 404 []) "q" 5 = .ok [] := by
  obtain ⟨-, h2, -, -, -, -, h7, -, -, -, h11, -, -, -, -⟩ := claim_C2
  exact ⟨h2 "q" 5 500 (.value ⟨[]⟩) (by decide),
    h11 "q" 5 500 .contentTypeError (by decide),
    h7 "q" 5 404 [] (by decide)⟩

/-- C3, counterexample.  A Remotive job payload carrying only an `id`
normalizes to a record whose title and url are `None` — not non-empty
strings as the claim demands — and RemoteOK called with limit 0 returns
one record (its break check only runs after an append), so the length
bound also fails at that limit. -/
theorem claim_C3_counterexample :
    fetch_jobs_remotive (.response 200 (.value ⟨[remotiveBareItem]⟩)) "va" 10 =
      .ok [{ unique_id := "7", title := none, company := none,
             url := none, location := none }] ∧
    fetch_jobs_remoteok (.response 200 (.value [remoteokEntry1])) "data" 0 =
      .ok [{ unique_id := "1", title := some "Data Entry", company := some "Acme",
             url := some "https://remoteok.com/remote-jobs/1",
             location := some "Remote" }] :=
  ⟨rfl, rfl⟩

/-- C3, amended: on every successful fetch, every modelled adapter
returns at most `limit` records (RemoteOK provided `limit ≥ 1`) and
every record has a non-empty unique_id; titles and urls, however, may be
`None` or empty when the source payload lacks them. -/
theorem claim_C3 :
    (∀ r q l js, fetch_jobs_remotive r q l = .ok js →
      js.length ≤ l ∧ ∀ j ∈ js, j.unique_id ≠ "") ∧
    (∀ r q l js, 1 ≤ l → fetch_jobs_remoteok r q l = .ok js →
      js.length ≤ l ∧ ∀ j ∈ js, j.unique_id ≠ "") ∧
    (∀ r q l js, fetch_jobs_weworkremotely r q l = .ok js →
      js.length ≤ l ∧ ∀ j ∈ js, j.unique_id ≠ "") ∧
    (∀ r l js, fetch_jobs_rss r l = .ok js →
      js.length ≤ l ∧ ∀ j ∈ js, j.unique_id ≠ "") ∧
    (∀ r q l ft pt fr js, fetch_jobs_onlinejobs r q l ft pt fr = .ok js →
      js.length ≤ l ∧ ∀ j ∈ js, j.unique_id ≠ "") := by
  refine ⟨?_, ?_, ?_, ?_, ?_⟩
  · intro r q l js hok
    cases r with
    | transportError =>
      simp only [fetch_jobs_remotive] at hok
      cases hok
      simp
    | response s b =>
      cases b with
      | contentTypeError =>
        simp only [fetch_jobs_remotive] at hok
        split at hok
        · cases hok; simp
        · split at hok
          · cases hok; simp
          · cases hok; simp
      | decodeError =>
        simp only [fetch_jobs_remotive] at hok
        split at hok
        · cases hok; simp
        · split at hok
          · cases hok; simp
          · cases hok
      | value d =>
        simp only [fetch_jobs_remotive] at hok
        split at hok
        · cases hok; simp
        · split at hok
          · cases hok; simp
          · cases hok
            refine ⟨map_take_length_le _ _ _, ?_⟩
            intro j hj
            obtain ⟨a, -, rfl⟩ := of_mem_map_take hj
            exact remotiveItemToJob_unique a
  · intro r q l js hl hok
    cases r with
    | transportError => simp only [fetch_jobs_remoteok] at hok; cases hok
    | response s b =>
      cases b with
      | contentTypeError =>
        simp only [fetch_jobs_remoteok] at hok
        split at hok <;> cases hok
      | decodeError =>
        simp only [fetch_jobs_remoteok] at hok
        split at hok <;> cases hok
      | value data =>
        simp only [fetch_jobs_remoteok] at hok
        split at hok
        · cases hok
        · cases hok
          refine ⟨remoteokLoop_length q l data [] (by simpa using hl), ?_⟩
          exact remoteokLoop_unique q l data [] (by simp)
  · intro r q l js hok
    cases r with
    | transportError =>
      simp only [fetch_jobs_weworkremotely] at hok
      cases hok; simp
    | response s ms =>
      simp only [fetch_jobs_weworkremotely] at hok
      split at hok
      · cases hok; simp
      · cases ms with
        | nil => cases hok
        | cons m rest =>
          simp only [wwrAssemble] at hok
          by_cases hl0 : l = 0
          · rw [if_pos hl0] at hok; cases hok
          · rw [if_neg hl0] at hok
            cases hok
            refine ⟨?_, ?_⟩
            · simpa using Nat.one_le_iff_ne_zero.mpr hl0
            · intro j hj
              rcases List.mem_singleton.mp hj with rfl
              exact wwrMatchToJob_unique _
  · intro r l js hok
    cases r with
    | transportError => simp only [fetch_jobs_rss] at hok; cases hok
    | response s f =>
      simp only [fetch_jobs_rss] at hok
      split at hok
      · cases hok
      · cases hok
        refine ⟨take_map_length_le _ _ _, ?_⟩
        intro j hj
        obtain ⟨a, -, rfl⟩ := of_mem_take_map hj
        exact rssEntryToJob_unique a
  · intro r q l ft pt fr js hok
    cases r with
    | transportError =>
      simp only [fetch_jobs_onlinejobs] at hok
      cases hok; simp
    | response s page =>
      simp only [fetch_jobs_onlinejobs] at hok
      split at hok
      · cases hok; simp
      · split at hok
        · cases hok
          refine ⟨take_map_length_le _ _ _, ?_⟩
          intro j hj
          obtain ⟨a, -, rfl⟩ := of_mem_take_map hj
          exact ojOldMatchToJob_unique a
        · cases hok
          refine ⟨take_map_length_le _ _ _, ?_⟩
          intro j hj
          obtain ⟨a, -, rfl⟩ := of_mem_take_map hj
          exact ojOuterMatchToJob_unique a

/-- C3 witness: the single record RemoteOK returns for "data" at limit 5
obeys the bound of the amended claim. -/
theorem claim_C3_witness :
    ([{ unique_id := "1", title := some "Data Entry", company := some "Acme",
        url := some "https://remoteok.com/remote-jobs/1",
        location := some "Remote" }] : List Job).length ≤ 5 := by
  obtain ⟨-, hb, -, -, -⟩ := claim_C3
  exact (hb (.response 200 (.value [remoteokEntry1])) "data" 5 _
    (by decide) (by rfl)).1

/-- C4, counterexample.  OnlineJobs.ph records carry no source-native
id, so by the claimed priority their unique_id should be the canonical
posting URL itself; the code instead always hashes the URL, and the hash
(32 hex characters) differs from the 49-character URL. -/
theorem claim_C4_counterexample :
    fetch_jobs_onlinejobs (.response 200 ojPage1) "va" 10 true true true =
      .ok [ojOldMatchToJob ⟨"/jobseekers/jobdetails/1", "VA needed", none⟩] ∧
    (ojOldMatchToJob ⟨"/jobseekers/jobdetails/1", "VA needed", none⟩).url =
      some ojUrl1 ∧
    (ojOldMatchToJob ⟨"/jobseekers/jobdetails/1", "VA needed", none⟩).unique_id ≠
      ojUrl1 := by
  refine ⟨rfl, by decide, ?_⟩
  intro h
  have hu : (ojOldMatchToJob ⟨"/jobseekers/jobdetails/1", "VA needed", none⟩).unique_id =
      md5hex ("https://www.onlinejobs.ph" ++ "/jobseekers/jobdetails/1") := rfl
  rw [hu] at h
  have h32 := md5hex_data_length ("https://www.onlinejobs.ph" ++ "/jobseekers/jobdetails/1")
  rw [h] at h32
  exact absurd h32 (by decide)

/-- C4, amended: Remotive derives unique_id by the claimed priority
(id, else url, else md5(title ++ company)); the RSS adapter uses the
same priority but hashes title ++ LINK, not title ++ company; and every
OnlineJobs.ph record's unique_id is always the md5 of its posting URL,
never the URL or a source-native id.  Every output record of these
pipelines comes from one input item via the respective normalizer. -/
theorem claim_C4 :
    (∀ j : RemotiveItem, (remotiveItemToJob j).unique_id =
      claimedUniqueId j.id j.url (j.title.getD "") (j.company_name.getD "")) ∧
    (∀ e : RssEntry, (rssEntryToJob e).unique_id =
      claimedUniqueId (e.id.map JsonPrim.str) e.link
        (e.title.getD "") (e.link.getD "")) ∧
    (∀ r q l ft pt fr js, fetch_jobs_onlinejobs r q l ft pt fr = .ok js →
      ∀ j ∈ js, ∃ u, j.url = some u ∧ j.unique_id = md5hex u) ∧
    (∀ d q l js, fetch_jobs_remotive (.response 200 (.value d)) q l = .ok js →
      ∀ j ∈ js, ∃ it ∈ d.jobs, remotiveItemToJob it = j) ∧
    (∀ r l js, fetch_jobs_rss r l = .ok js →
      ∀ j ∈ js, ∃ e, rssEntryToJob e = j) := by
  refine ⟨fun j => rfl, ?_, ?_, ?_, ?_⟩
  · intro e
    cases hid : e.id with
    | none =>
      simp [rssEntryToJob, rssUniqueId, claimedUniqueId, pyOrD, pyOrPrim, hid]
    | some s =>
      by_cases hs : s = "" <;>
        simp [rssEntryToJob, rssUniqueId, claimedUniqueId, pyOrD, pyOrPrim,
          jsonTruthy, jsonToStr, hid, hs]
  · intro r q l ft pt fr js hok
    cases r with
    | transportError =>
      simp only [fetch_jobs_onlinejobs] at hok
      cases hok; simp
    | response s page =>
      simp only [fetch_jobs_onlinejobs] at hok
      split at hok
      · cases hok; simp
      · split at hok
        · cases hok
          intro j hj
          obtain ⟨a, -, rfl⟩ := of_mem_take_map hj
          exact ⟨"https://www.onlinejobs.ph" ++ a.path, rfl, rfl⟩
        · cases hok
          intro j hj
          obtain ⟨a, -, rfl⟩ := of_mem_take_map hj
          exact ⟨"https://www.onlinejobs.ph" ++ a.path, rfl, rfl⟩
  · intro d q l js hok
    simp only [fetch_jobs_remotive] at hok
    split at hok
    · cases hok; simp
    · split at hok
      · cases hok; simp
      · cases hok
        intro j hj
        exact of_mem_map_take hj
  · intro r l js hok
    cases r with
    | transportError => simp only [fetch_jobs_rss] at hok; cases hok
    | response s f =>
      simp only [fetch_jobs_rss] at hok
      split at hok
      · cases hok
      · cases hok
        intro j hj
        obtain ⟨a, -, ha⟩ := of_mem_take_map hj
        exact ⟨a, ha⟩

/-- C4 witness: the unique record of the one-match OnlineJobs.ph page
has its unique_id equal to the md5 of its url. -/
theorem claim_C4_witness :
    ∃ u, (ojOldMatchToJob ⟨"/jobseekers/jobdetails/1", "VA needed", none⟩).url =
        some u ∧
      (ojOldMatchToJob ⟨"/jobseekers/jobdetails/1", "VA needed", none⟩).unique_id =
        md5hex u := by
  obtain ⟨-, -, h3, -, -⟩ := claim_C4
  exact h3 (.response 200 ojPage1) "va" 10 true true true _ rfl _
    (List.mem_singleton.mpr rfl)

/-- The MD5 embedding matches the RFC 1321 test vector for the empty
message, so the unique-id hashes computed above are the real
`hashlib.md5` hex digests. -/
theorem md5hex_vector_empty :
    md5hex "" = "d41d8cd98f00b204e9800998ecf8427e" := by decide

/-- The MD5 embedding matches the RFC 1321 test vector for "abc". -/
theorem md5hex_vector_abc :
    md5hex "abc" = "900150983cd24fb0d6963f7d28e17f72" := by decide

end JobFinder
